import Mathlib

/-!
Verification of the acme-shop-orders-service order-lifecycle core.

This file shallowly embeds the Go source of the orders service:

* `isValidStatusTransition`   — internal/service status table (part_003:831-853)
* `CalculateTax`, `CalculateOrderTotal` — internal/service/pricing.go
* `SanitizeOrderNotes`        — internal/service (part_003:203-216)
* `ValidateCreateOrderRequest` and helpers — part_003:12-84
* the orchestrator methods `CreateOrder`, `UpdateOrderStatus`, `CancelOrder`,
  `ProcessOrderPayment`, `RefundOrder` — part_003:307-733, with the
  collaborators (repository, cache, payment gateway, user validator,
  notification sender, event publisher) represented as oracle parameters and
  an explicit effect trace.

Machine floats (Go float64) are modelled by `ℚ`; `math.Round` is modelled by
round-half-away-from-zero on `ℚ` (`mathRound`).  Go strings are modelled by
`List Char` where character-level reasoning is needed.  Timestamps and the
address payloads carried along unchanged are kept only where a claim can
observe them.
-/

namespace AcmeOrders

/-- The seven order statuses of `models.OrderStatus` (string constants in Go;
the handler layer rejects any string outside this set, part_003:87-107). -/
inductive OrderStatus where
  | pending
  | confirmed
  | processing
  | shipped
  | delivered
  | cancelled
  | refunded
deriving DecidableEq, Fintype

/-- Rendering used by `fmt.Sprintf("%s", status)` in error messages. -/
def OrderStatus.toString : OrderStatus → String
  | .pending => "pending"
  | .confirmed => "confirmed"
  | .processing => "processing"
  | .shipped => "shipped"
  | .delivered => "delivered"
  | .cancelled => "cancelled"
  | .refunded => "refunded"

/-- The `validTransitions` map literal of `isValidStatusTransition`
(part_003:832-840), keyed by source status. -/
def validTransitions : OrderStatus → List OrderStatus
  | .pending => [.confirmed, .cancelled]
  | .confirmed => [.processing, .cancelled]
  | .processing => [.shipped, .cancelled]
  | .shipped => [.delivered]
  | .delivered => [.refunded]
  | .cancelled => []
  | .refunded => []

/-- `isValidStatusTransition(from, to)` (part_003:831-853): look the source
status up in the map (every status is a key, so the `ok` guard never fires for
the seven statuses) and scan the allowed list for the target. -/
def isValidStatusTransition (src dst : OrderStatus) : Bool :=
  (validTransitions src).contains dst

/-- The allowed pairs exactly as the spec §4.1 table lists them; written from
the spec text, to be compared with `isValidStatusTransition`. -/
def specAllowedPairs : List (OrderStatus × OrderStatus) :=
  [(.pending, .confirmed), (.pending, .cancelled),
   (.confirmed, .processing), (.confirmed, .cancelled),
   (.processing, .shipped), (.processing, .cancelled),
   (.shipped, .delivered),
   (.delivered, .refunded)]

/-- Go `math.Round`: round half away from zero, modelled exactly on `ℚ`. -/
def mathRound (q : ℚ) : ℤ :=
  if q < 0 then -⌊-q + 1/2⌋ else ⌊q + 1/2⌋

/-- `OrderTotal` of internal/service/pricing.go (float64 fields modelled
by `ℚ`). -/
structure OrderTotal where
  Subtotal : ℚ
  Tax : ℚ
  Total : ℚ
deriving DecidableEq

/-- `CalculateTax` (pricing.go): `math.Round(subtotal*taxRate*100) / 100`. -/
def CalculateTax (subtotal taxRate : ℚ) : ℚ :=
  (mathRound (subtotal * taxRate * 100) : ℚ) / 100

/-- `CalculateOrderTotal` (pricing.go): tax from `CalculateTax`, and
`Total = subtotal + tax`.  Note the function has no shipping parameter. -/
def CalculateOrderTotal (subtotal taxRate : ℚ) : OrderTotal :=
  { Subtotal := subtotal
    Tax := CalculateTax subtotal taxRate
    Total := subtotal + CalculateTax subtotal taxRate }

/-- The §4.2 `compute_totals` contract exactly as the spec words it
(tax = round(subtotal * tax_rate, 2 decimals); total = subtotal + tax +
shipping_cost); written from the spec, to be compared with
`CalculateOrderTotal`.  The spec lets the implementation pick the standard
rounding mode; round-half-away-from-zero is used to match `math.Round`. -/
def specComputeTotals (subtotal taxRate shippingCost : ℚ) : OrderTotal :=
  { Subtotal := subtotal
    Tax := (mathRound (subtotal * taxRate * 100) : ℚ) / 100
    Total := subtotal + (mathRound (subtotal * taxRate * 100) : ℚ) / 100 + shippingCost }

/-- `models.Money` (shared library type used throughout src): an integer
minor-unit amount plus a currency code. -/
structure Money where
  Amount : Int
  Currency : String
deriving DecidableEq

/-- Modelled from the spec: `Money.ToFloat` lives in the external
acme-shop-shared-go module; per the spec's Money model the amount is in
integer minor units (cents), so the major-unit float value is amount / 100,
which is how every caller in src (pricing subtotals, `%.2f` formatting,
legacy charge amounts) uses it.  Go float64 is modelled by `ℚ`. -/
def Money.ToFloat (m : Money) : ℚ :=
  (m.Amount : ℚ) / 100

/-- `models.OrderItem` fields the service reads (product id, quantity,
unit price, item total).  `Total` is carried in the creation request and is
what the service sums (part_003:316). -/
structure OrderItem where
  ProductID : String
  ProductName : String
  Quantity : Int
  UnitPrice : Money
  Total : Money
deriving DecidableEq

/-- `models.Address` fields validated at creation (part_003:61-84). -/
structure Address where
  Line1 : String
  City : String
  State : String
  PostalCode : String
  Country : String
deriving DecidableEq

/-- `models.Order` fields the orchestrator reads or writes.  Timestamps are
elided: no claim observes them. -/
structure Order where
  ID : String
  UserID : String
  Status : OrderStatus
  Items : List OrderItem
  ShippingAddress : Address
  BillingAddress : Address
  Subtotal : Money
  Tax : Money
  ShippingCost : Money
  Total : Money
  PaymentID : String
  Notes : String
deriving DecidableEq

/-- Modelled from the spec: `models.Order.CanCancel` lives in the external
acme-shop-shared-go module, not under src.  Per §4.1 "can_cancel(order): true
iff order.status is pending or confirmed", which the repository's own test
`TestOrderModel_CanCancel` (internal/repository/cache.go:393-415) records
case by case. -/
def Order.CanCancel (o : Order) : Bool :=
  match o.Status with
  | .pending => true
  | .confirmed => true
  | _ => false

/-- Modelled from the spec: `models.Order.CanRefund` lives in the external
acme-shop-shared-go module, not under src.  Per §4.1 "can_refund(order): true
iff order.status is delivered and order.payment_id is set", matching the
repository's own test `TestOrderModel_CanRefund`
(internal/repository/cache.go:417-440). -/
def Order.CanRefund (o : Order) : Bool :=
  o.Status == .delivered && o.PaymentID != ""

/-- Modelled from the spec: `models.Order.CalculateTotal` lives in the
external acme-shop-shared-go module, not under src.  Behaviour fixed by the
repository's own test `TestOrderModel_CalculateTotal`
(internal/repository/cache.go:443-462): subtotal = sum of the items' `Total`
amounts, total = subtotal + tax + shipping cost, with `Tax` and
`ShippingCost` left as they are (the method takes no tax-rate input).
Currencies are taken from the first item, as in the test's uniform-currency
data. -/
def Order.CalculateTotal (o : Order) : Order :=
  let subAmt := (o.Items.map (fun it => it.Total.Amount)).sum
  let cur := match o.Items with
    | [] => ""
    | it :: _ => it.Total.Currency
  { o with
      Subtotal := { Amount := subAmt, Currency := cur }
      Total := { Amount := subAmt + o.Tax.Amount + o.ShippingCost.Amount, Currency := cur } }

/-- Typed errors of the shared errors package as the service uses them:
`errors.ErrNotFound`, `errors.NewValidationError(field, msg)`, and everything
else (repository, gateway, transport failures) as an opaque message. -/
inductive SvcError where
  | ErrNotFound
  | ValidationError (field msg : String)
  | UpstreamError (msg : String)
deriving DecidableEq

/-- `models.CreateOrderRequest` fields the service reads. -/
structure CreateOrderRequest where
  UserID : String
  Items : List OrderItem
  ShippingAddress : Address
  BillingAddress : Address
  Notes : String
deriving DecidableEq

/-- `validateOrderItem` (part_003:41-59), first failing check wins. -/
def validateOrderItem (item : OrderItem) : Option SvcError :=
  if item.ProductID = "" then
    some (.ValidationError "items" "product ID is required for item")
  else if item.Quantity ≤ 0 then
    some (.ValidationError "items" "quantity must be positive")
  else if item.UnitPrice.Amount < 0 then
    some (.ValidationError "items" "unit price cannot be negative")
  else if item.UnitPrice.Currency = "" then
    some (.ValidationError "items" "currency is required for item")
  else
    none

/-- `validateAddress` (part_003:61-84). -/
def validateAddress (addr : Address) (field : String) : Option SvcError :=
  if addr.Line1 = "" then
    some (.ValidationError field "address line 1 is required")
  else if addr.City = "" then
    some (.ValidationError field "city is required")
  else if addr.PostalCode = "" then
    some (.ValidationError field "postal code is required")
  else if addr.Country = "" then
    some (.ValidationError field "country is required")
  else if addr.Country.length ≠ 2 then
    some (.ValidationError field "country must be a 2-letter ISO code")
  else
    none

/-- The item loop of `ValidateCreateOrderRequest` (part_003:22-26): return
the first item error. -/
def validateItems : List OrderItem → Option SvcError
  | [] => none
  | item :: rest =>
    match validateOrderItem item with
    | some e => some e
    | none => validateItems rest

/-- `ValidateCreateOrderRequest` (part_003:12-39). -/
def ValidateCreateOrderRequest (req : CreateOrderRequest) : Option SvcError :=
  if req.UserID = "" then
    some (.ValidationError "user_id" "user ID is required")
  else if req.Items.isEmpty then
    some (.ValidationError "items" "at least one item is required")
  else
    match validateItems req.Items with
    | some e => some e
    | none =>
      match validateAddress req.ShippingAddress "shipping_address" with
      | some e => some e
      | none => validateAddress req.BillingAddress "billing_address"

/-- `strings.ReplaceAll` for a single-character pattern, on the
character-list view of the string. -/
def replaceAllChar (pat : Char) (repl : List Char) : List Char → List Char
  | [] => []
  | c :: cs => (if c = pat then repl else [c]) ++ replaceAllChar pat repl cs

/-- `strings.TrimSpace`, on the character-list view: drop leading and
trailing whitespace. -/
def trimSpace (s : List Char) : List Char :=
  ((s.dropWhile Char.isWhitespace).reverse.dropWhile Char.isWhitespace).reverse

/-- `SanitizeOrderNotes` (part_003:203-216) on the character-list view of
the string: escape `<`, `>`, `"` in that order, trim surrounding space, then
truncate to at most 1000 characters (Go slices the first 1000 bytes; on the
character level this is `take 1000`). -/
def SanitizeOrderNotes (notes : List Char) : List Char :=
  let step1 := replaceAllChar '<' "&lt;".data notes
  let step2 := replaceAllChar '>' "&gt;".data step1
  let step3 := replaceAllChar '"' "&quot;".data step2
  let trimmed := trimSpace step3
  if trimmed.length > 1000 then trimmed.take 1000 else trimmed

/-- The durable order store the repository manages, as a map from order id
to order (rows with `deleted_at` set are simply absent). -/
def RepoDB : Type := String → Option Order

/-- Point update of the store, as one `UPDATE ... WHERE id = $1` produces. -/
def setOrder (db : RepoDB) (id : String) (o : Order) : RepoDB :=
  fun k => if k = id then some o else db k

/-- `models.PaymentStatus` values the service reads. -/
inductive PaymentStatus where
  | statusPending
  | statusCompleted
  | statusCancelled
  | statusRefunded
  | statusFailed
deriving DecidableEq

/-- `models.PaymentMethod` values (part_003:152-168). -/
inductive PaymentMethod where
  | CreditCard
  | DebitCard
  | PayPal
  | BankTransfer
  | Crypto
deriving DecidableEq

/-- `models.ProcessPaymentRequest` fields the service reads or overwrites. -/
structure ProcessPaymentRequest where
  OrderID : String
  UserID : String
  Amount : Money
  Method : PaymentMethod
  CardToken : String
  ReturnURL : String
deriving DecidableEq

/-- `models.ProcessPaymentResponse`: the gateway's payment id and status. -/
structure ProcessPaymentResponse where
  PaymentID : String
  Status : PaymentStatus
deriving DecidableEq

/-- `models.RefundResponse`: the gateway's refund id and status. -/
structure RefundResponse where
  RefundID : String
  Status : PaymentStatus
deriving DecidableEq

/-- The payment record `GetPaymentStatus` returns (id and status suffice). -/
structure Payment where
  ID : String
  Status : PaymentStatus
deriving DecidableEq

/-- A charge the service hands to a payment gateway: either the v2
`ProcessPayment(paymentReq)` call (part_003:651) or the legacy
`ProcessLegacyPayment` call carrying a float amount and a currency
(part_003:637-642). -/
inductive ChargeCall where
  | v2 (req : ProcessPaymentRequest)
  | legacy (orderID : String) (amount : ℚ) (currency : String)
deriving DecidableEq

/-- The amount (major units) and currency a `ChargeCall` asks the gateway to
charge. -/
def ChargeCall.charged : ChargeCall → ℚ × String
  | .v2 req => (req.Amount.ToFloat, req.Amount.Currency)
  | .legacy _ amount currency => (amount, currency)

/-- `config.FeatureFlags` fields the orchestrator consults. -/
structure FeatureFlags where
  EnableLegacyPayments : Bool
  EnableOrderEvents : Bool
  EnableOrderCaching : Bool
deriving DecidableEq

/-- `config.Config` fields the orchestrator consults. -/
structure Config where
  TaxRate : ℚ
  Features : FeatureFlags
deriving DecidableEq

/-- Trace of best-effort side effects the orchestrator attempts: cache writes
and invalidations keyed by order id or user id, published event labels, and
notification labels.  An entry records an attempt; a failed attempt is logged
and swallowed by the service, so it never appears in a result. -/
structure Effects where
  cacheSets : List String
  cacheDeletes : List String
  userCacheInvalidations : List String
  eventsPublished : List String
  notificationsSent : List String
deriving DecidableEq

/-- The empty effect trace. -/
def emptyEffects : Effects :=
  { cacheSets := [], cacheDeletes := [], userCacheInvalidations := []
    eventsPublished := [], notificationsSent := [] }

/-- Outcomes of the infrastructure calls a single orchestrator invocation can
make, supplied as an oracle: whether the repository status write and the
payment-id write fail (network or SQL errors). -/
structure RepoEnv where
  updateStatusFails : Bool
  setPaymentIDFails : Bool
deriving DecidableEq

/-- `PostgresOrderRepository.UpdateStatus`
(internal/clients/payment_fallback.go:251-292): one unconditional
`UPDATE orders SET status = $2, notes = COALESCE($3, notes) ... WHERE id = $1`
— no condition on the current status — followed by a re-read.  The request's
notes are a non-null Go string, so the COALESCE always takes them. -/
def repoUpdateStatus (env : RepoEnv) (db : RepoDB) (id : String)
    (newStatus : OrderStatus) (notes : String) :
    RepoDB × Except SvcError Order :=
  match db id with
  | none => (db, .error .ErrNotFound)
  | some o =>
    if env.updateStatusFails then
      (db, .error (.UpstreamError "update status failed"))
    else
      let updated := { o with Status := newStatus, Notes := notes }
      (setOrder db id updated, .ok updated)

/-- `PostgresOrderRepository.SetPaymentID`
(internal/clients/payment_fallback.go:383-414). -/
def repoSetPaymentID (env : RepoEnv) (db : RepoDB) (id paymentID : String) :
    RepoDB × Except SvcError Unit :=
  match db id with
  | none => (db, .error .ErrNotFound)
  | some o =>
    if env.setPaymentIDFails then
      (db, .error (.UpstreamError "set payment id failed"))
    else
      (setOrder db id { o with PaymentID := paymentID }, .ok ())

/-- The order `PostgresOrderRepository.Create`
(internal/clients/payment_fallback.go:115-180) builds and persists: status
pending, fields copied from the request, then `order.CalculateTotal()` to
fill the monetary fields (tax and shipping cost are never set, so they stay
at their zero values). -/
def createdOrder (newID : String) (req : CreateOrderRequest) : Order :=
  Order.CalculateTotal
    { ID := newID
      UserID := req.UserID
      Status := .pending
      Items := req.Items
      ShippingAddress := req.ShippingAddress
      BillingAddress := req.BillingAddress
      Subtotal := { Amount := 0, Currency := "" }
      Tax := { Amount := 0, Currency := "" }
      ShippingCost := { Amount := 0, Currency := "" }
      Total := { Amount := 0, Currency := "" }
      PaymentID := ""
      Notes := req.Notes }

/-- Oracle for one `CreateOrder` invocation: the user validator's verdict,
whether the repository insert fails, the generated order id, and whether the
best-effort cache, event and notification calls fail. -/
structure CreateEnv where
  userValidateResult : Except SvcError Bool
  createFails : Bool
  newID : String
  cacheSetFails : Bool
  publishFails : Bool
  notifyFails : Bool

/-- `OrderService.CreateOrder` (part_003:307-383): sum the item totals and
feed them with the configured tax rate to `CalculateOrderTotal`, discarding
the result (`_ =` in Go); validate the user, then the request; persist via
the repository (any failure aborts with that error and no side effects);
then best-effort cache the order and invalidate the user's list cache,
best-effort publish `order.created`, and fire the confirmation notification
in a goroutine — none of whose failures change the returned value. -/
def CreateOrder (cfg : Config) (env : CreateEnv) (req : CreateOrderRequest) :
    Except SvcError Order × Effects :=
  let subtotal := (req.Items.map (fun it => it.Total.ToFloat)).sum
  let _discarded := CalculateOrderTotal subtotal cfg.TaxRate
  match env.userValidateResult with
  | .error e => (.error e, emptyEffects)
  | .ok valid =>
    if !valid then
      (.error (.ValidationError "user_id" "user not found or inactive"), emptyEffects)
    else
      match ValidateCreateOrderRequest req with
      | some e => (.error e, emptyEffects)
      | none =>
        if env.createFails then
          (.error (.UpstreamError "insert failed"), emptyEffects)
        else
          let order := createdOrder env.newID req
          let cacheEff :=
            if cfg.Features.EnableOrderCaching then
              { emptyEffects with
                  cacheSets := [order.ID]
                  userCacheInvalidations := [order.UserID] }
            else emptyEffects
          let eventEff :=
            if cfg.Features.EnableOrderEvents then
              { cacheEff with eventsPublished := ["order.created:" ++ order.ID] }
            else cacheEff
          let allEff :=
            { eventEff with
                notificationsSent := ["order_confirmation:" ++ order.ID] }
          (.ok order, allEff)

/-- The customer-visible notifications `sendStatusChangeNotification`
dispatches (part_003:777-808): shipped and delivered only. -/
def statusChangeNotifications (order : Order) : List String :=
  match order.Status with
  | .shipped => ["order_shipped:" ++ order.ID]
  | .delivered => ["order_delivered:" ++ order.ID]
  | _ => []

/-- `OrderService.UpdateOrderStatus` (part_003:424-476): load the order
(Not-Found if absent), consult `isValidStatusTransition` with the current and
requested statuses and reject with a validation error naming both if it
refuses, otherwise write through the repository, then best-effort cache
invalidation, status-changed event and (async) notification. -/
def UpdateOrderStatus (cfg : Config) (env : RepoEnv) (db : RepoDB)
    (id : String) (newStatus : OrderStatus) (notes : String) :
    RepoDB × Except SvcError Order × Effects :=
  match db id with
  | none => (db, .error .ErrNotFound, emptyEffects)
  | some currentOrder =>
    if !(isValidStatusTransition currentOrder.Status newStatus) then
      (db,
       .error (.ValidationError "status"
         ("invalid status transition from " ++ currentOrder.Status.toString
           ++ " to " ++ newStatus.toString)),
       emptyEffects)
    else
      let written := repoUpdateStatus env db id newStatus notes
      match written.2 with
      | .error e => (written.1, .error e, emptyEffects)
      | .ok order =>
        let cacheEff :=
          if cfg.Features.EnableOrderCaching then
            { emptyEffects with
                cacheDeletes := [id]
                userCacheInvalidations := [order.UserID] }
          else emptyEffects
        let eventEff :=
          if cfg.Features.EnableOrderEvents then
            { cacheEff with
                eventsPublished := ["order.status_changed:" ++ order.ID] }
          else cacheEff
        let allEff :=
          { eventEff with
              notificationsSent := statusChangeNotifications order }
        (written.1, .ok order, allEff)

/-- Oracle for one `CancelOrder` invocation: repository behaviour, the
gateway's answer to `GetPaymentStatus`, and whether `CancelPayment` fails. -/
structure CancelEnv where
  repoEnv : RepoEnv
  paymentStatusResult : Except SvcError (Option Payment)
  cancelPaymentFails : Bool

/-- `OrderService.CancelOrder` (part_003:479-548): load the order, reject
with a validation error unless `order.CanCancel()`; if a payment is attached,
best-effort look it up and, when still pending at the gateway, best-effort
cancel it (failures logged, never blocking); then write status cancelled with
the reason as notes directly through the repository, and fire the best-effort
cache invalidation, `order.cancelled` event and cancellation notification.
The gateway cancel attempts are returned alongside for inspection. -/
def CancelOrder (cfg : Config) (env : CancelEnv) (db : RepoDB)
    (id reason : String) :
    RepoDB × Except SvcError Order × Effects × List String :=
  match db id with
  | none => (db, .error .ErrNotFound, emptyEffects, [])
  | some order =>
    if !order.CanCancel then
      (db, .error (.ValidationError "status" "order cannot be cancelled in current state"),
       emptyEffects, [])
    else
      let gatewayCancels :=
        if order.PaymentID != "" then
          match env.paymentStatusResult with
          | .error _ => []
          | .ok none => []
          | .ok (some payment) =>
            if payment.Status = .statusPending then [order.PaymentID] else []
        else []
      let written := repoUpdateStatus env.repoEnv db id .cancelled reason
      match written.2 with
      | .error e => (written.1, .error e, emptyEffects, gatewayCancels)
      | .ok updated =>
        let cacheEff :=
          if cfg.Features.EnableOrderCaching then
            { emptyEffects with
                cacheDeletes := [id]
                userCacheInvalidations := [updated.UserID] }
          else emptyEffects
        let eventEff :=
          if cfg.Features.EnableOrderEvents then
            { cacheEff with
                eventsPublished := ["order.cancelled:" ++ updated.ID] }
          else cacheEff
        let allEff :=
          { eventEff with
              notificationsSent := ["order_cancelled:" ++ updated.ID] }
        (written.1, .ok updated, allEff, gatewayCancels)

/-- Oracle for one `ProcessOrderPayment` invocation: repository behaviour
and the gateway's answers on the v2 and legacy charge paths. -/
structure PayEnv where
  repoEnv : RepoEnv
  chargeResult : Except SvcError ProcessPaymentResponse
  legacyChargeResult : Except SvcError String

/-- `OrderService.ProcessOrderPayment` (part_003:607-684): load the order
(Not-Found if absent), reject unless it is pending; overwrite the request's
order id and amount with the order's stored total; charge through the legacy
client when legacy payments are enabled and the method is bank transfer
(amount `order.Total.ToFloat()`, currency from the total), otherwise through
the v2 client with the overwritten request; on gateway failure return that
error.  Then best-effort persist the payment id; if the gateway reported the
payment completed, drive `UpdateOrderStatus` to confirmed, discarding its
result; and return the gateway's response.  The charges handed to a gateway
are returned alongside for inspection. -/
def ProcessOrderPayment (cfg : Config) (env : PayEnv) (db : RepoDB)
    (orderID : String) (paymentReq : ProcessPaymentRequest) :
    RepoDB × Except SvcError ProcessPaymentResponse × List ChargeCall :=
  match db orderID with
  | none => (db, .error .ErrNotFound, [])
  | some order =>
    if order.Status ≠ .pending then
      (db, .error (.ValidationError "status" "order is not in pending state"), [])
    else
      let overwritten :=
        { paymentReq with OrderID := orderID, Amount := order.Total }
      let useLegacy :=
        cfg.Features.EnableLegacyPayments && paymentReq.Method == .BankTransfer
      let call : ChargeCall :=
        if useLegacy then
          .legacy orderID order.Total.ToFloat order.Total.Currency
        else
          .v2 overwritten
      let chargeRes : Except SvcError ProcessPaymentResponse :=
        if useLegacy then
          match env.legacyChargeResult with
          | .error e => .error e
          | .ok txnID => .ok { PaymentID := txnID, Status := .statusPending }
        else
          env.chargeResult
      match chargeRes with
      | .error e => (db, .error e, [call])
      | .ok resp =>
        let db1 := (repoSetPaymentID env.repoEnv db orderID resp.PaymentID).1
        let db2 :=
          if resp.Status = .statusCompleted then
            (UpdateOrderStatus cfg env.repoEnv db1 orderID .confirmed
              "Payment completed").1
          else db1
        (db2, .ok resp, [call])

/-- Oracle for one `RefundOrder` invocation: repository behaviour and the
gateway's answer to `Refund`. -/
structure RefundEnv where
  repoEnv : RepoEnv
  refundResult : Except SvcError RefundResponse

/-- `OrderService.RefundOrder` (part_003:687-733): load the order (Not-Found
if absent), reject with a validation error unless `order.CanRefund()`; refund
the order's full total against its payment id at the gateway, returning any
gateway error; if the gateway reported the refund as refunded, drive
`UpdateOrderStatus` to refunded (notes "Refund processed: " + reason),
discarding its result; and return the gateway's response. -/
def RefundOrder (cfg : Config) (env : RefundEnv) (db : RepoDB)
    (orderID reason : String) :
    RepoDB × Except SvcError RefundResponse :=
  match db orderID with
  | none => (db, .error .ErrNotFound)
  | some order =>
    if !order.CanRefund then
      (db, .error (.ValidationError "status" "order cannot be refunded"))
    else
      match env.refundResult with
      | .error e => (db, .error e)
      | .ok resp =>
        let db1 :=
          if resp.Status = .statusRefunded then
            (UpdateOrderStatus cfg env.repoEnv db orderID .refunded
              ("Refund processed: " ++ reason)).1
          else db
        (db1, .ok resp)

/-- One racing `UpdateOrderStatus` call against a fixed order, split at its
repository suspension points (spec §5): `target` is the requested status,
`readStatus` the snapshot `GetByID` returned (none before the read), and
`result` the outcome (`some true` = success, `some false` = validation
error), none while still running. -/
structure RaceCall where
  target : OrderStatus
  readStatus : Option OrderStatus
  result : Option Bool
deriving DecidableEq

/-- A fresh racing call requesting `target`. -/
def raceCallStart (target : OrderStatus) : RaceCall :=
  { target := target, readStatus := none, result := none }

/-- One atomic step of a racing `UpdateOrderStatus` call over the shared
stored status.  Step 1 is the repository read (part_003:431).  Step 2
validates the transition against the snapshot (part_003:440) and, when it
passes, performs the repository write — which per
`PostgresOrderRepository.UpdateStatus` is an unconditional
`UPDATE orders SET status = $2 ... WHERE id = $1` with no condition on the
current status (internal/clients/payment_fallback.go:269-276), so it
succeeds regardless of what the other call did in between. -/
def raceStep (st : OrderStatus) (c : RaceCall) : OrderStatus × RaceCall :=
  match c.readStatus, c.result with
  | none, _ => (st, { c with readStatus := some st })
  | some seen, none =>
    if isValidStatusTransition seen c.target then
      (c.target, { c with result := some true })
    else
      (st, { c with result := some false })
  | some _, some _ => (st, c)

/-- Run a schedule over two racing calls: `true` steps call 1, `false`
steps call 2. -/
def runRace : List Bool → OrderStatus → RaceCall → RaceCall →
    OrderStatus × RaceCall × RaceCall
  | [], st, c1, c2 => (st, c1, c2)
  | pick :: rest, st, c1, c2 =>
    if pick then
      let (st1, c1x) := raceStep st c1
      runRace rest st1 c1x c2
    else
      let (st1, c2x) := raceStep st c2
      runRace rest st1 c1 c2x

/-- The status stored for an order id, the one observable the state-machine
claims constrain. -/
def statusAt (db : RepoDB) (id : String) : Option OrderStatus :=
  (db id).map Order.Status

/-- A store holding exactly one order. -/
def singletonDB (id : String) (o : Order) : RepoDB :=
  fun k => if k = id then some o else none

/-- The characters HTML escaping treats as significant (the set Go's
`html.EscapeString` replaces): ampersand, apostrophe, angle brackets and the
double quote. -/
def htmlSignificantChars : List Char :=
  ['&', '\'', '<', '>', '"']

/-- A filled-in US address satisfying `validateAddress`, as in the repo's
request fixtures (part_006). -/
def usAddress : Address :=
  { Line1 := "123 Test St", City := "Test City", State := "TS"
    PostalCode := "12345", Country := "US" }

/-- The §4.2 example line items: price 1000 quantity 2 and price 500
quantity 1, minor units, one currency. -/
def sampleItems : List OrderItem :=
  [{ ProductID := "prod_a", ProductName := "Product A", Quantity := 2
     UnitPrice := { Amount := 1000, Currency := "USD" }
     Total := { Amount := 2000, Currency := "USD" } },
   { ProductID := "prod_b", ProductName := "Product B", Quantity := 1
     UnitPrice := { Amount := 500, Currency := "USD" }
     Total := { Amount := 500, Currency := "USD" } }]

/-- A creation request that passes `ValidateCreateOrderRequest`. -/
def sampleCreateReq : CreateOrderRequest :=
  { UserID := "user_1", Items := sampleItems
    ShippingAddress := usAddress, BillingAddress := usAddress, Notes := "" }

/-- The default feature flags of `config.Load` (all toggles on). -/
def defaultFlags : FeatureFlags :=
  { EnableLegacyPayments := true, EnableOrderEvents := true
    EnableOrderCaching := true }

/-- Configuration with the default `TAX_RATE` of 0.088 (config.Load). -/
def defaultConfig : Config :=
  { TaxRate := 88/1000, Features := defaultFlags }

/-- A `CreateOrder` oracle where the user is active and every call
succeeds. -/
def okCreateEnv : CreateEnv :=
  { userValidateResult := .ok true, createFails := false, newID := "ord_1"
    cacheSetFails := false, publishFails := false, notifyFails := false }

/-- A repository oracle where every write succeeds. -/
def okRepoEnv : RepoEnv :=
  { updateStatusFails := false, setPaymentIDFails := false }

/-- An order in the given status with the sample items and a stored total of
2500 USD minor units, no payment attached. -/
def orderInStatus (status : OrderStatus) : Order :=
  { ID := "ord_1", UserID := "user_1", Status := status
    Items := sampleItems
    ShippingAddress := usAddress, BillingAddress := usAddress
    Subtotal := { Amount := 2500, Currency := "USD" }
    Tax := { Amount := 0, Currency := "USD" }
    ShippingCost := { Amount := 0, Currency := "USD" }
    Total := { Amount := 2500, Currency := "USD" }
    PaymentID := "", Notes := "" }

/-- `orderInStatus` with a payment attached, for refund scenarios. -/
def orderWithPayment (status : OrderStatus) : Order :=
  { orderInStatus status with PaymentID := "pay_1" }

/-- A `CancelOrder` oracle with no pending gateway payment and no
infrastructure failures. -/
def okCancelEnv : CancelEnv :=
  { repoEnv := okRepoEnv, paymentStatusResult := .ok none
    cancelPaymentFails := false }

/-- A `ProcessOrderPayment` oracle whose gateway reports the charge as
immediately completed. -/
def completedPayEnv : PayEnv :=
  { repoEnv := okRepoEnv
    chargeResult := .ok { PaymentID := "pay_1", Status := .statusCompleted }
    legacyChargeResult := .ok "txn_1" }

/-- `completedPayEnv` with the internal status write failing. -/
def failingUpdatePayEnv : PayEnv :=
  { completedPayEnv with
      repoEnv := { okRepoEnv with updateStatusFails := true } }

/-- A `RefundOrder` oracle whose gateway reports the refund as refunded but
whose internal status write fails. -/
def failingUpdateRefundEnv : RefundEnv :=
  { repoEnv := { okRepoEnv with updateStatusFails := true }
    refundResult := .ok { RefundID := "ref_1", Status := .statusRefunded } }

/-- A v2 card payment request carrying a client-chosen amount. -/
def cardPaymentReq (amount : Money) : ProcessPaymentRequest :=
  { OrderID := "ord_1", UserID := "user_1", Amount := amount
    Method := .CreditCard, CardToken := "tok_1", ReturnURL := "" }

/-! ## Theorems -/

/-- C1: for every pair (from, to) drawn from the seven order statuses,
`isValidStatusTransition(from, to)` returns true exactly when the pair is in
the §4.1 table (pending→confirmed/cancelled, confirmed→processing/cancelled,
processing→shipped/cancelled, shipped→delivered, delivered→refunded) and
false for every other pair, including all self-transitions and all
transitions out of the terminal states cancelled and refunded. -/
theorem C1_transition_table_matches_spec :
    ∀ src dst : OrderStatus,
      isValidStatusTransition src dst = true ↔ (src, dst) ∈ specAllowedPairs := by
  decide

/-- C3 counterexample: the claim says the calculator adds a shipping cost and
yields total 3220 minor units (32.20) on the §4.2 example (subtotal 25.00,
tax rate 0.088, shipping 5.00); `CalculateOrderTotal` takes no shipping cost
and computes total 27.20, which differs from the spec-side `specComputeTotals`
at shipping 5.00. -/
theorem C3_counterexample :
    (CalculateOrderTotal 25 (88/1000)).Total = 136/5
    ∧ (specComputeTotals 25 (88/1000) 5).Total = 161/5
    ∧ CalculateOrderTotal 25 (88/1000) ≠ specComputeTotals 25 (88/1000) 5 := by
  refine ⟨?_, ?_, ?_⟩ <;>
    simp [CalculateOrderTotal, CalculateTax, specComputeTotals, OrderTotal.mk.injEq] <;>
    norm_num [mathRound]

/-- C3 amended: `CalculateOrderTotal` computes tax =
round(subtotal · tax_rate, 2 decimals) with round-half-away-from-zero and
total = subtotal + tax, with NO shipping component (the function has no
shipping parameter), over float major units; on the §4.2 example it yields
subtotal 25.00, tax 2.20, total 27.20 (minor units 2500 / 220 / 2720, not
3220), and in general it agrees with the §4.2 contract specialised to
shipping cost 0. -/
theorem C3_amended_no_shipping :
    CalculateOrderTotal 25 (88/1000)
        = { Subtotal := 25, Tax := 11/5, Total := 136/5 }
    ∧ ∀ subtotal taxRate : ℚ,
        CalculateOrderTotal subtotal taxRate = specComputeTotals subtotal taxRate 0 := by
  constructor
  · simp [CalculateOrderTotal, CalculateTax, OrderTotal.mk.injEq]
    norm_num [mathRound]
  · intro s r
    simp [CalculateOrderTotal, specComputeTotals, CalculateTax]

/-- C7: the claim says that of two racing `UpdateOrderStatus` calls on the
same pending order — one to confirmed, one to cancelled — exactly one
succeeds and the other gets a Conflict or Validation error, because the
status write is conditional on the current status.  The repository write is
an unconditional `UPDATE orders SET status = ... WHERE id = ...`
(internal/clients/payment_fallback.go:269-276), so in the interleaving
read₁ read₂ write₁ write₂ both calls read pending, both validation checks
pass, both writes succeed, and the cancelled write silently overwrites the
confirmed one: both calls report success, refuting the claim. -/
theorem C7_race_both_succeed :
    runRace [true, false, true, false] .pending
        (raceCallStart .confirmed) (raceCallStart .cancelled)
      = (.cancelled,
         { target := .confirmed, readStatus := some .pending, result := some true },
         { target := .cancelled, readStatus := some .pending, result := some true }) := by
  decide

/-- C4 (code bug): `CreateOrder` sums the item totals (25.00 major units on
the §4.2 example request) and feeds them with the configured tax rate 0.088
to `CalculateOrderTotal`, but discards the result (`_ =`, part_003:320); the
persisted order's monetary fields come from `Order.CalculateTotal`, which
never sees the tax rate, so the returned order carries tax 0 and total 2500
minor units where the §4.2 calculator computes tax 220 and total 2720. -/
theorem C4_created_totals_ignore_calculator :
    ((sampleCreateReq.Items.map (fun it => it.Total.ToFloat)).sum = 25)
    ∧ (Except.map (fun o => (o.Tax.Amount, o.Total.Amount))
        (CreateOrder defaultConfig okCreateEnv sampleCreateReq).1)
        = Except.ok ((0 : Int), (2500 : Int))
    ∧ (CalculateOrderTotal 25 (88/1000)).Tax * 100 = 220
    ∧ (CalculateOrderTotal 25 (88/1000)).Total * 100 = 2720 := by
  refine ⟨?_, ?_, ?_, ?_⟩
  · norm_num [sampleCreateReq, sampleItems, Money.ToFloat]
  · rfl
  · simp [CalculateOrderTotal, CalculateTax]
    norm_num [mathRound]
  · simp [CalculateOrderTotal, CalculateTax]
    norm_num [mathRound]

/-- C5: when the user is valid and the request passes validation, a failing
repository insert makes `CreateOrder` return that error with an empty side
effect trace (no cache write, no event, no notification), and a successful
insert makes `CreateOrder` return the persisted order whatever the
best-effort cache, event and notification outcomes in the oracle are. -/
theorem C5_create_failure_isolation
    (cfg : Config) (env : CreateEnv) (req : CreateOrderRequest)
    (huser : env.userValidateResult = Except.ok true)
    (hvalid : ValidateCreateOrderRequest req = none) :
    (env.createFails = true →
        CreateOrder cfg env req
          = (.error (.UpstreamError "insert failed"), emptyEffects))
    ∧ (env.createFails = false →
        (CreateOrder cfg env req).1 = .ok (createdOrder env.newID req)) := by
  constructor <;> intro h <;> simp [CreateOrder, huser, hvalid, h]

/-- C5 witness: the sample request on the all-succeeding oracle. -/
theorem C5_witness :
    (okCreateEnv.userValidateResult = Except.ok true)
    ∧ ValidateCreateOrderRequest sampleCreateReq = none
    ∧ (okCreateEnv.createFails = false →
        (CreateOrder defaultConfig okCreateEnv sampleCreateReq).1
          = .ok (createdOrder okCreateEnv.newID sampleCreateReq)) :=
  ⟨rfl, by decide,
   (C5_create_failure_isolation defaultConfig okCreateEnv sampleCreateReq rfl
      (by decide)).2⟩

/-- C6: for an existing order whose current status does not allow the
requested transition, `UpdateOrderStatus` returns a validation error whose
message names both statuses, leaves the store untouched (the same `db` is
returned, so the stored status is unchanged), and attempts no side effect. -/
theorem C6_invalid_update_rejected
    (cfg : Config) (env : RepoEnv) (db : RepoDB) (id : String) (o : Order)
    (newStatus : OrderStatus) (notes : String)
    (hdb : db id = some o)
    (hinv : isValidStatusTransition o.Status newStatus = false) :
    UpdateOrderStatus cfg env db id newStatus notes
      = (db,
         .error (.ValidationError "status"
           ("invalid status transition from " ++ o.Status.toString
             ++ " to " ++ newStatus.toString)),
         emptyEffects)
    ∧ statusAt db id = some o.Status := by
  refine ⟨?_, by simp [statusAt, hdb]⟩
  simp [UpdateOrderStatus, hdb, hinv]

/-- C6 witness: `UpdateOrderStatus` from shipped to pending is rejected with
the validation error naming both statuses and the stored status remains
shipped. -/
theorem C6_witness :
    (singletonDB "ord_1" (orderInStatus .shipped)) "ord_1"
        = some (orderInStatus .shipped)
    ∧ isValidStatusTransition (orderInStatus .shipped).Status .pending = false
    ∧ (UpdateOrderStatus defaultConfig okRepoEnv
          (singletonDB "ord_1" (orderInStatus .shipped)) "ord_1" .pending "n"
        = (singletonDB "ord_1" (orderInStatus .shipped),
           .error (.ValidationError "status"
             ("invalid status transition from "
               ++ (orderInStatus .shipped).Status.toString
               ++ " to " ++ OrderStatus.pending.toString)),
           emptyEffects)
       ∧ statusAt (singletonDB "ord_1" (orderInStatus .shipped)) "ord_1"
           = some (orderInStatus .shipped).Status) :=
  ⟨rfl, rfl,
   C6_invalid_update_rejected defaultConfig okRepoEnv
     (singletonDB "ord_1" (orderInStatus .shipped)) "ord_1"
     (orderInStatus .shipped) .pending "n" rfl rfl⟩

/-- The status stored after `setOrder` at the written id. -/
theorem statusAt_setOrder_self (db : RepoDB) (id : String) (o : Order) :
    statusAt (setOrder db id o) id = some o.Status := by
  simp [statusAt, setOrder]

/-- `repoUpdateStatus` leaves the stored status at `id` unchanged or sets it
to the requested status. -/
theorem repoUpdateStatus_statusAt (env : RepoEnv) (db : RepoDB) (id : String)
    (ns : OrderStatus) (notes : String) :
    statusAt (repoUpdateStatus env db id ns notes).1 id = statusAt db id
    ∨ statusAt (repoUpdateStatus env db id ns notes).1 id = some ns := by
  unfold repoUpdateStatus
  cases hdb : db id with
  | none => left; rfl
  | some o =>
    by_cases hf : env.updateStatusFails
    · left; simp [hf]
    · right; simp [hf, statusAt, setOrder]

/-- `repoSetPaymentID` never changes the stored status. -/
theorem repoSetPaymentID_statusAt (env : RepoEnv) (db : RepoDB)
    (id pid : String) :
    statusAt (repoSetPaymentID env db id pid).1 id = statusAt db id := by
  unfold repoSetPaymentID
  cases hdb : db id with
  | none => rfl
  | some o =>
    by_cases hf : env.setPaymentIDFails
    · simp [hf]
    · simp [hf, statusAt, setOrder, hdb]

/-- If an `UpdateOrderStatus` call changed the stored status, the transition
table allowed the change from the previously stored status. -/
theorem updateOrderStatus_guard (cfg : Config) (env : RepoEnv) (db : RepoDB)
    (id : String) (ns : OrderStatus) (notes : String) (s s' : OrderStatus)
    (h0 : statusAt db id = some s)
    (h1 : statusAt (UpdateOrderStatus cfg env db id ns notes).1 id = some s')
    (hne : s' ≠ s) : isValidStatusTransition s s' = true := by
  unfold UpdateOrderStatus at h1
  cases hdb : db id with
  | none => rw [statusAt, hdb] at h0; simp at h0
  | some o =>
    have hs : o.Status = s := by
      rw [statusAt, hdb] at h0
      simpa using h0
    rw [hdb] at h1
    by_cases hv : isValidStatusTransition o.Status ns
    · simp only [hv, Bool.not_true, Bool.false_eq_true, if_false] at h1
      rcases hw : (repoUpdateStatus env db id ns notes).2 with e | ord <;>
        rw [hw] at h1 <;> simp only at h1
      all_goals
        rcases repoUpdateStatus_statusAt env db id ns notes with hst | hst <;>
          rw [hst] at h1
        · rw [h0] at h1
          have heq : s = s' := by simpa using h1
          exact absurd heq.symm hne
        · have hns : s' = ns := by simpa using h1.symm
          subst hns
          rw [hs] at hv
          exact hv
    · simp only [Bool.not_eq_true] at hv
      simp only [hv, Bool.not_false, if_true] at h1
      rw [h0] at h1
      have heq : s = s' := by simpa using h1
      exact absurd heq.symm hne

/-- Having `CanCancel` forces a table-allowed transition to cancelled. -/
theorem canCancel_table (o : Order) (hc : o.CanCancel = true) :
    isValidStatusTransition o.Status .cancelled = true := by
  unfold Order.CanCancel at hc
  cases ho : o.Status <;> rw [ho] at hc <;> simp_all <;> rfl

/-- If a `CancelOrder` call changed the stored status, the transition table
allowed the change from the previously stored status. -/
theorem cancelOrder_guard (cfg : Config) (env : CancelEnv) (db : RepoDB)
    (id reason : String) (s s' : OrderStatus)
    (h0 : statusAt db id = some s)
    (h1 : statusAt (CancelOrder cfg env db id reason).1 id = some s')
    (hne : s' ≠ s) : isValidStatusTransition s s' = true := by
  unfold CancelOrder at h1
  cases hdb : db id with
  | none => rw [statusAt, hdb] at h0; simp at h0
  | some o =>
    have hs : o.Status = s := by
      rw [statusAt, hdb] at h0
      simpa using h0
    rw [hdb] at h1
    by_cases hc : o.CanCancel
    · simp only [hc, Bool.not_true, Bool.false_eq_true, if_false] at h1
      rcases hw : (repoUpdateStatus env.repoEnv db id .cancelled reason).2 with e | ord <;>
        rw [hw] at h1 <;> simp only at h1
      all_goals
        rcases repoUpdateStatus_statusAt env.repoEnv db id .cancelled reason with hst | hst <;>
          rw [hst] at h1
        · rw [h0] at h1
          have heq : s = s' := by simpa using h1
          exact absurd heq.symm hne
        · have hcan : s' = .cancelled := by simpa using h1.symm
          subst hcan
          exact hs ▸ canCancel_table o hc
    · simp only [Bool.not_eq_true] at hc
      simp only [hc, Bool.not_false, if_true] at h1
      rw [h0] at h1
      have heq : s = s' := by simpa using h1
      exact absurd heq.symm hne

/-- If a `ProcessOrderPayment` call changed the stored status, the
transition table allowed the change from the previously stored status. -/
theorem processOrderPayment_guard (cfg : Config) (env : PayEnv) (db : RepoDB)
    (orderID : String) (req : ProcessPaymentRequest) (s s' : OrderStatus)
    (h0 : statusAt db orderID = some s)
    (h1 : statusAt (ProcessOrderPayment cfg env db orderID req).1 orderID = some s')
    (hne : s' ≠ s) : isValidStatusTransition s s' = true := by
  unfold ProcessOrderPayment at h1
  cases hdb : db orderID with
  | none => rw [statusAt, hdb] at h0; simp at h0
  | some o =>
    rw [hdb] at h1
    by_cases hp : o.Status = .pending
    · simp only [hp, ne_eq, not_true_eq_false, if_false, ite_not] at h1
      set useLegacy :=
        cfg.Features.EnableLegacyPayments && req.Method == PaymentMethod.BankTransfer with hul
      set chargeRes : Except SvcError ProcessPaymentResponse :=
        if useLegacy then
          match env.legacyChargeResult with
          | .error e => .error e
          | .ok txnID => .ok { PaymentID := txnID, Status := .statusPending }
        else
          env.chargeResult with hcr
      rcases hres : chargeRes with e | resp <;> rw [hres] at h1 <;> simp only at h1
      · rw [h0] at h1
        have heq : s = s' := by simpa using h1
        exact absurd heq.symm hne
      · have hsp : statusAt (repoSetPaymentID env.repoEnv db orderID resp.PaymentID).1 orderID
            = some s := by
          rw [repoSetPaymentID_statusAt, h0]
        by_cases hcomp : resp.Status = .statusCompleted
        · simp only [hcomp, if_true] at h1
          exact updateOrderStatus_guard cfg env.repoEnv _ orderID .confirmed
            "Payment completed" s s' hsp h1 hne
        · simp only [hcomp, if_false] at h1
          rw [hsp] at h1
          have heq : s = s' := by simpa using h1
          exact absurd heq.symm hne
    · simp only [hp, ne_eq, not_false_eq_true, if_true, ite_not] at h1
      rw [h0] at h1
      have heq : s = s' := by simpa using h1
      exact absurd heq.symm hne

/-- If a `RefundOrder` call changed the stored status, the transition table
allowed the change from the previously stored status. -/
theorem refundOrder_guard (cfg : Config) (env : RefundEnv) (db : RepoDB)
    (orderID reason : String) (s s' : OrderStatus)
    (h0 : statusAt db orderID = some s)
    (h1 : statusAt (RefundOrder cfg env db orderID reason).1 orderID = some s')
    (hne : s' ≠ s) : isValidStatusTransition s s' = true := by
  unfold RefundOrder at h1
  cases hdb : db orderID with
  | none => rw [statusAt, hdb] at h0; simp at h0
  | some o =>
    rw [hdb] at h1
    by_cases hc : o.CanRefund
    · simp only [hc, Bool.not_true, Bool.false_eq_true, if_false] at h1
      rcases hres : env.refundResult with e | resp <;> rw [hres] at h1 <;> simp only at h1
      · rw [h0] at h1
        have heq : s = s' := by simpa using h1
        exact absurd heq.symm hne
      · by_cases hst : resp.Status = .statusRefunded
        · simp only [hst, if_true] at h1
          exact updateOrderStatus_guard cfg env.repoEnv db orderID .refunded
            ("Refund processed: " ++ reason) s s' h0 h1 hne
        · simp only [hst, if_false] at h1
          rw [h0] at h1
          have heq : s = s' := by simpa using h1
          exact absurd heq.symm hne
    · simp only [Bool.not_eq_true] at hc
      simp only [hc, Bool.not_false, if_true] at h1
      rw [h0] at h1
      have heq : s = s' := by simpa using h1
      exact absurd heq.symm hne

/-- C2 counterexample: the write decision of `CancelOrder` is not the §4.1
table but the duplicated ad-hoc check `order.CanCancel()` (pending or
confirmed only, part_003:495): for an order in processing the table allows
processing→cancelled, yet `CancelOrder` rejects it with a validation error,
so cancellation does not consult the transition table and its ad-hoc guard
disagrees with the table. -/
theorem C2_counterexample_cancel_ignores_table :
    Order.CanCancel (orderInStatus .processing) = false
    ∧ isValidStatusTransition .processing .cancelled = true
    ∧ (CancelOrder defaultConfig okCancelEnv
          (singletonDB "ord_1" (orderInStatus .processing)) "ord_1" "reason").2.1
        = .error (.ValidationError "status"
            "order cannot be cancelled in current state") := by
  refine ⟨rfl, rfl, ?_⟩
  rfl

/-- C2 amended: every status actually written by the four operations —
direct status update, cancellation, payment completion and refund — is
allowed by the §4.1 table from the previously stored status
(`UpdateOrderStatus`, `ProcessOrderPayment` and `RefundOrder` consult
`isValidStatusTransition` on the write path, and `CancelOrder`'s ad-hoc
`CanCancel` guard is strictly stronger than the table), but `CancelOrder`
does not consult the table: it decides via the duplicated `CanCancel`
check, which also rejects the table-allowed transition
processing→cancelled. -/
theorem C2_amended_status_writes_respect_table :
    (∀ cfg env db id ns notes s s',
        statusAt db id = some s →
        statusAt (UpdateOrderStatus cfg env db id ns notes).1 id = some s' →
        s' ≠ s → isValidStatusTransition s s' = true)
    ∧ (∀ cfg env db id reason s s',
        statusAt db id = some s →
        statusAt (CancelOrder cfg env db id reason).1 id = some s' →
        s' ≠ s → isValidStatusTransition s s' = true)
    ∧ (∀ cfg env db id req s s',
        statusAt db id = some s →
        statusAt (ProcessOrderPayment cfg env db id req).1 id = some s' →
        s' ≠ s → isValidStatusTransition s s' = true)
    ∧ (∀ cfg env db id reason s s',
        statusAt db id = some s →
        statusAt (RefundOrder cfg env db id reason).1 id = some s' →
        s' ≠ s → isValidStatusTransition s s' = true) :=
  ⟨fun cfg env db id ns notes s s' =>
      updateOrderStatus_guard cfg env db id ns notes s s',
   fun cfg env db id reason s s' =>
      cancelOrder_guard cfg env db id reason s s',
   fun cfg env db id req s s' =>
      processOrderPayment_guard cfg env db id req s s',
   fun cfg env db id reason s s' =>
      refundOrder_guard cfg env db id reason s s'⟩

/-- C2 amended witness: a concrete pending order driven to confirmed by
`UpdateOrderStatus`; the amended theorem applied there yields the table
verdict for pending→confirmed. -/
theorem C2_amended_witness :
    isValidStatusTransition .pending .confirmed = true :=
  C2_amended_status_writes_respect_table.1 defaultConfig okRepoEnv
    (singletonDB "ord_1" (orderInStatus .pending)) "ord_1" .confirmed "n"
    .pending .confirmed rfl rfl (by decide)

/-- For a pending order, `ProcessOrderPayment` hands the gateway exactly one
charge: the legacy call with the order total as a float, or the v2 call with
the request whose amount was overwritten by the order total. -/
theorem processOrderPayment_charges (cfg : Config) (env : PayEnv)
    (db : RepoDB) (orderID : String) (req : ProcessPaymentRequest)
    (order : Order)
    (hdb : db orderID = some order) (hpend : order.Status = .pending) :
    (ProcessOrderPayment cfg env db orderID req).2.2
      = [if cfg.Features.EnableLegacyPayments
            && req.Method == PaymentMethod.BankTransfer then
           ChargeCall.legacy orderID order.Total.ToFloat order.Total.Currency
         else
           ChargeCall.v2 { req with OrderID := orderID, Amount := order.Total }] := by
  unfold ProcessOrderPayment
  rw [hdb]
  simp only [hpend, ne_eq, not_true_eq_false, if_false, ite_not]
  split <;> rfl

/-- `ProcessOrderPayment` never reads the client-supplied amount: changing
only the request's amount changes nothing. -/
theorem processOrderPayment_amount_irrelevant (cfg : Config) (env : PayEnv)
    (db : RepoDB) (orderID : String) (req : ProcessPaymentRequest)
    (m : Money) :
    ProcessOrderPayment cfg env db orderID { req with Amount := m }
      = ProcessOrderPayment cfg env db orderID req := by
  rfl

/-- C8: for every pending order, the amount and currency that
`ProcessOrderPayment` passes to the gateway's charge operation equal the
order's stored total — on both the v2 and the legacy path — independently of
the amount and currency in the client's request, so two calls on the same
order differing only in the request's amount/currency issue the same charge
and behave identically. -/
theorem C8_charge_amount_from_stored_total
    (cfg : Config) (env : PayEnv) (db : RepoDB) (orderID : String)
    (req req2 : ProcessPaymentRequest) (order : Order)
    (hdb : db orderID = some order)
    (hpend : order.Status = .pending)
    (hOid : req2.OrderID = req.OrderID) (hUid : req2.UserID = req.UserID)
    (hM : req2.Method = req.Method) (hCt : req2.CardToken = req.CardToken)
    (hRu : req2.ReturnURL = req.ReturnURL) :
    (∀ call ∈ (ProcessOrderPayment cfg env db orderID req).2.2,
        call.charged = (order.Total.ToFloat, order.Total.Currency))
    ∧ ProcessOrderPayment cfg env db orderID req
        = ProcessOrderPayment cfg env db orderID req2 := by
  constructor
  · intro call hcall
    rw [processOrderPayment_charges cfg env db orderID req order hdb hpend] at hcall
    have hc := List.mem_singleton.mp hcall
    subst hc
    by_cases hul : (cfg.Features.EnableLegacyPayments
        && req.Method == PaymentMethod.BankTransfer) = true
    · simp [hul, ChargeCall.charged]
    · simp [hul, ChargeCall.charged]
  · have hreq : req2 = { req with Amount := req2.Amount } := by
      cases req; cases req2
      simp_all
    rw [hreq]
    exact (processOrderPayment_amount_irrelevant cfg env db orderID req req2.Amount).symm

/-- C8 witness: two card payment requests against the same pending order,
one claiming 1.00 EUR and one claiming 9999.99 JPY, charge identically. -/
theorem C8_witness :
    (∀ call ∈ (ProcessOrderPayment defaultConfig completedPayEnv
          (singletonDB "ord_1" (orderInStatus .pending)) "ord_1"
          (cardPaymentReq { Amount := 100, Currency := "EUR" })).2.2,
        call.charged = ((orderInStatus .pending).Total.ToFloat,
          (orderInStatus .pending).Total.Currency))
    ∧ ProcessOrderPayment defaultConfig completedPayEnv
          (singletonDB "ord_1" (orderInStatus .pending)) "ord_1"
          (cardPaymentReq { Amount := 100, Currency := "EUR" })
        = ProcessOrderPayment defaultConfig completedPayEnv
            (singletonDB "ord_1" (orderInStatus .pending)) "ord_1"
            (cardPaymentReq { Amount := 999999, Currency := "JPY" }) :=
  C8_charge_amount_from_stored_total defaultConfig completedPayEnv
    (singletonDB "ord_1" (orderInStatus .pending)) "ord_1"
    (cardPaymentReq { Amount := 100, Currency := "EUR" })
    (cardPaymentReq { Amount := 999999, Currency := "JPY" })
    (orderInStatus .pending) rfl rfl rfl rfl rfl rfl rfl

/-- When the repository status write fails, `UpdateOrderStatus` leaves the
store exactly as it was. -/
theorem updateOrderStatus_db_unchanged_of_fail (cfg : Config) (env : RepoEnv)
    (db : RepoDB) (id : String) (ns : OrderStatus) (notes : String)
    (hf : env.updateStatusFails = true) :
    (UpdateOrderStatus cfg env db id ns notes).1 = db := by
  unfold UpdateOrderStatus
  cases hdb : db id with
  | none => rfl
  | some o =>
    by_cases hv : isValidStatusTransition o.Status ns
    · simp only [hv, Bool.not_true, Bool.false_eq_true, if_false]
      simp [repoUpdateStatus, hdb, hf]
    · simp [hv]

/-- C10 (implicit): when the gateway reports a charge as completed
(respectively a refund as refunded), a failure of the internal
`UpdateOrderStatus` call to confirmed (respectively refunded) is ignored:
`ProcessOrderPayment` (respectively `RefundOrder`) still returns the
gateway's result without error, and the stored status has not reached
confirmed (respectively refunded). -/
theorem C10_gateway_success_ignores_update_failure
    (cfg : Config) (env : PayEnv) (renv : RefundEnv) (db dbR : RepoDB)
    (orderID oid2 reason : String) (req : ProcessPaymentRequest)
    (order orderR : Order) (resp : ProcessPaymentResponse)
    (rresp : RefundResponse)
    (hdb : db orderID = some order) (hpend : order.Status = .pending)
    (hlegacy : (cfg.Features.EnableLegacyPayments
        && req.Method == PaymentMethod.BankTransfer) = false)
    (hcharge : env.chargeResult = .ok resp)
    (hcomp : resp.Status = .statusCompleted)
    (hfail : env.repoEnv.updateStatusFails = true)
    (hdbR : dbR oid2 = some orderR)
    (href : orderR.CanRefund = true)
    (hrr : renv.refundResult = .ok rresp)
    (hrs : rresp.Status = .statusRefunded)
    (hrf : renv.repoEnv.updateStatusFails = true) :
    ((ProcessOrderPayment cfg env db orderID req).2.1 = .ok resp
      ∧ statusAt (ProcessOrderPayment cfg env db orderID req).1 orderID
          = some .pending)
    ∧ ((RefundOrder cfg renv dbR oid2 reason).2 = .ok rresp
      ∧ statusAt (RefundOrder cfg renv dbR oid2 reason).1 oid2
          = some orderR.Status) := by
  refine ⟨⟨?_, ?_⟩, ?_, ?_⟩
  · unfold ProcessOrderPayment
    rw [hdb]
    simp [hpend, hlegacy, hcharge]
  · unfold ProcessOrderPayment
    rw [hdb]
    simp only [hpend, ne_eq, not_true_eq_false, if_false, ite_not, hlegacy,
      Bool.false_eq_true, hcharge, hcomp, if_true]
    rw [updateOrderStatus_db_unchanged_of_fail cfg env.repoEnv _ orderID
      .confirmed "Payment completed" hfail]
    rw [repoSetPaymentID_statusAt]
    rw [statusAt, hdb]
    simp [hpend]
  · unfold RefundOrder
    rw [hdbR]
    simp [href, hrr]
  · unfold RefundOrder
    rw [hdbR]
    simp only [href, Bool.not_true, Bool.false_eq_true, if_false, hrr,
      hrs, if_true]
    rw [updateOrderStatus_db_unchanged_of_fail cfg renv.repoEnv dbR oid2
      .refunded ("Refund processed: " ++ reason) hrf]
    rw [statusAt, hdbR]
    rfl

/-- C10 witness: a completed charge on a pending order and a refunded refund
on a delivered paid order, both with the internal status write failing; both
operations still return the gateway result and the stored statuses remain
pending and delivered. -/
theorem C10_witness :
    ((ProcessOrderPayment defaultConfig failingUpdatePayEnv
          (singletonDB "ord_1" (orderInStatus .pending)) "ord_1"
          (cardPaymentReq { Amount := 100, Currency := "EUR" })).2.1
        = .ok { PaymentID := "pay_1", Status := .statusCompleted }
      ∧ statusAt (ProcessOrderPayment defaultConfig failingUpdatePayEnv
          (singletonDB "ord_1" (orderInStatus .pending)) "ord_1"
          (cardPaymentReq { Amount := 100, Currency := "EUR" })).1 "ord_1"
          = some .pending)
    ∧ ((RefundOrder defaultConfig failingUpdateRefundEnv
          (singletonDB "ord_2" (orderWithPayment .delivered)) "ord_2" "why").2
        = .ok { RefundID := "ref_1", Status := .statusRefunded }
      ∧ statusAt (RefundOrder defaultConfig failingUpdateRefundEnv
          (singletonDB "ord_2" (orderWithPayment .delivered)) "ord_2" "why").1
          "ord_2" = some (orderWithPayment .delivered).Status) :=
  C10_gateway_success_ignores_update_failure defaultConfig failingUpdatePayEnv
    failingUpdateRefundEnv (singletonDB "ord_1" (orderInStatus .pending))
    (singletonDB "ord_2" (orderWithPayment .delivered)) "ord_1" "ord_2" "why"
    (cardPaymentReq { Amount := 100, Currency := "EUR" })
    (orderInStatus .pending) (orderWithPayment .delivered)
    { PaymentID := "pay_1", Status := .statusCompleted }
    { RefundID := "ref_1", Status := .statusRefunded }
    rfl rfl rfl rfl rfl rfl rfl rfl rfl rfl rfl

/-- Every character of `replaceAllChar p r l` comes from the replacement
string or is an unreplaced input character. -/
theorem mem_replaceAllChar (p : Char) (r : List Char) (l : List Char)
    (c : Char) (hc : c ∈ replaceAllChar p r l) :
    c ∈ r ∨ (c ∈ l ∧ c ≠ p) := by
  induction l with
  | nil => simp [replaceAllChar] at hc
  | cons a as ih =>
    simp only [replaceAllChar, List.mem_append] at hc
    rcases hc with h | h
    · by_cases hap : a = p
      · rw [if_pos hap] at h
        exact Or.inl h
      · rw [if_neg hap] at h
        have hca : c = a := by simpa using h
        subst hca
        exact Or.inr ⟨List.mem_cons_self c as, hap⟩
    · rcases ih h with h1 | ⟨h2, h3⟩
      · exact Or.inl h1
      · exact Or.inr ⟨List.mem_cons_of_mem a h2, h3⟩

/-- `trimSpace` only removes characters. -/
theorem mem_trimSpace (s : List Char) (c : Char) (hc : c ∈ trimSpace s) :
    c ∈ s := by
  unfold trimSpace at hc
  rw [List.mem_reverse] at hc
  have h1 := (List.dropWhile_sublist _).subset hc
  rw [List.mem_reverse] at h1
  exact (List.dropWhile_sublist _).subset h1

/-- Every character of `SanitizeOrderNotes s` survives from the escaped
string (before trimming and truncation). -/
theorem mem_sanitizeOrderNotes (s : List Char) (c : Char)
    (hc : c ∈ SanitizeOrderNotes s) :
    c ∈ replaceAllChar '"' "&quot;".data
        (replaceAllChar '>' "&gt;".data
          (replaceAllChar '<' "&lt;".data s)) := by
  unfold SanitizeOrderNotes at hc
  by_cases hlen :
      (trimSpace (replaceAllChar '"' "&quot;".data
        (replaceAllChar '>' "&gt;".data
          (replaceAllChar '<' "&lt;".data s)))).length > 1000
  · rw [if_pos hlen] at hc
    exact mem_trimSpace _ c ((List.take_sublist _ _).subset hc)
  · rw [if_neg hlen] at hc
    exact mem_trimSpace _ c hc

/-- C9 counterexample: the claim says the output contains none of the
HTML-significant characters of the input in raw form; the ampersand is
HTML-significant (Go's `html.EscapeString` escapes it) but
`SanitizeOrderNotes` replaces only `<`, `>`, `"`, so the input "&" is
returned as the raw "&". -/
theorem C9_counterexample_ampersand_not_escaped :
    SanitizeOrderNotes ['&'] = ['&']
    ∧ '&' ∈ htmlSignificantChars
    ∧ '&' ∈ SanitizeOrderNotes ['&'] := by
  refine ⟨rfl, by decide, by decide⟩

/-- C9 amended: `SanitizeOrderNotes` caps every output at 1000 characters
and leaves no raw `<`, `>` or `"` in it, but it does not escape the other
HTML-significant characters: `&` and `'` pass through unchanged. -/
theorem C9_amended_partial_escape (s : List Char) :
    '<' ∉ SanitizeOrderNotes s
    ∧ '>' ∉ SanitizeOrderNotes s
    ∧ '"' ∉ SanitizeOrderNotes s
    ∧ (SanitizeOrderNotes s).length ≤ 1000 := by
  refine ⟨?_, ?_, ?_, ?_⟩
  · intro hmem
    have h3 := mem_sanitizeOrderNotes s _ hmem
    rcases mem_replaceAllChar _ _ _ _ h3 with h | ⟨h2, _⟩
    · revert h
      decide
    · rcases mem_replaceAllChar _ _ _ _ h2 with h | ⟨h1, _⟩
      · revert h
        decide
      · rcases mem_replaceAllChar _ _ _ _ h1 with h | ⟨_, hne⟩
        · revert h
          decide
        · exact hne rfl
  · intro hmem
    have h3 := mem_sanitizeOrderNotes s _ hmem
    rcases mem_replaceAllChar _ _ _ _ h3 with h | ⟨h2, _⟩
    · revert h
      decide
    · rcases mem_replaceAllChar _ _ _ _ h2 with h | ⟨_, hne⟩
      · revert h
        decide
      · exact hne rfl
  · intro hmem
    have h3 := mem_sanitizeOrderNotes s _ hmem
    rcases mem_replaceAllChar _ _ _ _ h3 with h | ⟨_, hne⟩
    · revert h
      decide
    · exact hne rfl
  · unfold SanitizeOrderNotes
    by_cases hlen :
        (trimSpace (replaceAllChar '"' "&quot;".data
          (replaceAllChar '>' "&gt;".data
            (replaceAllChar '<' "&lt;".data s)))).length > 1000
    · rw [if_pos hlen]
      simp
    · rw [if_neg hlen]
      omega

end AcmeOrders
